import Mathlib

/-!
Shallow embedding of the fakecar_api service (src/main.py): record schemas
CarData and UserData, the in-memory store (a Python-dict style insertion
ordered association list), the random generators (randomness passed in as
explicit sample inputs), and the four request handlers plus the startup
bootstrap, modelled as pure state-passing functions.

Python floats are embedded as rationals: the program never performs float
arithmetic, it only stores sampled values and compares records.
-/

/-- CarData mirrors the pydantic model CarData of src/main.py, field for
field, with Python float embedded as ℚ and dicts as insertion-ordered
association lists. -/
structure CarData where
  brand : String
  model : String
  year : Int
  vin : String
  license_plate : String
  infotainment_capabilities : List String
  color : String
  charging_port_location : String
  battery_capacity : ℚ
  maximum_range : ℚ
  charging_connector_types : List String
  charging_cable_types : List String
  gps_coordinates : List (String × ℚ)
  state_of_charge : ℚ
  speed : ℚ
  instant_power_consumption : ℚ
  historical_power_consumption : List ℚ
  range_estimation : ℚ
  charging_status : String
  charging_power_rate : ℚ
  battery_temperature : ℚ
  error_codes : List String
  motor_rpm : ℚ
  odometer_reading : ℚ
  battery_12v_voltage : ℚ
  regenerative_braking_data : List (String × ℚ)
  tire_pressure : List (String × ℚ)
deriving DecidableEq

/-- UserData mirrors the pydantic model UserData of src/main.py. -/
structure UserData where
  code : String
  name : String
  age : Int
  language : String
  nationality : String
  phone_number : String
  car : CarData
deriving DecidableEq

/-- HTTPException as raised by the handlers (FastAPI HTTPException). -/
structure HTTPException where
  status_code : Nat
  detail : String
deriving DecidableEq

/-- Lookup in a Python dict modelled as an association list
(first matching key wins; dict keys are unique by construction). -/
def dictGet {α : Type} (k : String) : List (String × α) → Option α
  | [] => none
  | (k₀, v) :: rest => if k₀ = k then some v else dictGet k rest

/-- Assignment d[k] = v on a Python dict: replaces the value in place if the
key is present (keeping its position), otherwise appends the new entry. -/
def dictInsert {α : Type} (k : String) (v : α) : List (String × α) → List (String × α)
  | [] => [(k, v)]
  | (k₀, v₀) :: rest => if k₀ = k then (k, v) :: rest else (k₀, v₀) :: dictInsert k v rest

/-- The in-memory database users_db maps user code to UserData. -/
abbrev Store := List (String × UserData)

/-- Uniform choice random.choice from a list, the sampled position given as
an arbitrary natural number (reduced modulo the length). -/
def choiceD (l : List String) (i : Nat) : String :=
  l.getD (i % l.length) ""

/-- Samples drawn by one call to generate_random_car: each random.choice or
random.randint is an arbitrary Nat position, each random.uniform an
arbitrary rational, the uuid hex an arbitrary string. -/
structure CarRng where
  brandIdx : Nat
  modelIdx : Nat
  yearVal : Nat
  vinHex : String
  plateLetterIdx : Nat
  plateNumVal : Nat
  colorIdx : Nat
  portIdx : Nat
  statusIdx : Nat
  batteryCapacity : ℚ
  maximumRange : ℚ
  stateOfCharge : ℚ
  speedVal : ℚ
  instantPower : ℚ
  histSample : Nat → ℚ
  rangeEstimation : ℚ
  chargingPowerRate : ℚ
  batteryTemperature : ℚ
  motorRpm : ℚ
  odometer : ℚ
  battery12v : ℚ
  regenPower : ℚ
  regenEfficiency : ℚ
  tpFL : ℚ
  tpFR : ℚ
  tpRL : ℚ
  tpRR : ℚ

/-- Samples drawn by one call to create_user, including the nested car
generation samples. -/
structure UserRng where
  nameIdx : Nat
  ageVal : Nat
  langIdx : Nat
  natIdx : Nat
  phoneCountry : Nat
  phoneLocal : Nat
  carRng : CarRng

/-- generate_user_code of src/main.py: returns the fixed literal. -/
def generate_user_code : String :=
  "aaaaaa"

/-- The car_options dictionary of generate_random_car. -/
def car_options : List (String × List String) :=
  [ ("Tesla", ["Model 3", "Model S", "Model X", "Model Y"])
  , ("BMW", ["i4", "iX", "330e", "530e"])
  , ("Audi", ["e-tron", "Q4 e-tron", "RS e-tron GT"])
  , ("Mercedes", ["EQS", "EQE", "EQA", "EQB"])
  , ("Porsche", ["Taycan", "Taycan Cross Turismo"])
  , ("Volvo", ["C40", "XC40 Recharge"]) ]

/-- string.ascii_uppercase as a list of one-character strings. -/
def asciiUppercase : List String :=
  [ "A", "B", "C", "D", "E", "F", "G", "H", "I", "J", "K", "L", "M"
  , "N", "O", "P", "Q", "R", "S", "T", "U", "V", "W", "X", "Y", "Z" ]

/-- generate_random_car of src/main.py: builds a CarData from the samples,
with GPS coordinates fixed to Porto, empty error codes, a ten-element
historical power consumption list and the four tire pressure keys. -/
def generate_random_car (rng : CarRng) : CarData :=
  let brand := choiceD (car_options.map Prod.fst) rng.brandIdx
  let models := (dictGet brand car_options).getD []
  let colors := ["Black", "White", "Blue", "Red", "Silver", "Green"]
  { brand := brand
  , model := choiceD models rng.modelIdx
  , year := ((2020 + rng.yearVal % 5 : Nat) : Int)
  , vin := (rng.vinHex.take 17).toUpper
  , license_plate :=
      choiceD asciiUppercase rng.plateLetterIdx ++ toString (100 + rng.plateNumVal % 900)
  , infotainment_capabilities := ["Navigation", "Bluetooth", "WiFi", "Mobile App"]
  , color := choiceD colors rng.colorIdx
  , charging_port_location := choiceD ["Front", "Rear Left", "Rear Right"] rng.portIdx
  , battery_capacity := rng.batteryCapacity
  , maximum_range := rng.maximumRange
  , charging_connector_types := ["Type 2", "CCS"]
  , charging_cable_types := ["Mode 3", "Mode 4"]
  , gps_coordinates := [("latitude", 41.1498379795316), ("longitude", -8.65870106339955)]
  , state_of_charge := rng.stateOfCharge
  , speed := rng.speedVal
  , instant_power_consumption := rng.instantPower
  , historical_power_consumption := (List.range 10).map rng.histSample
  , range_estimation := rng.rangeEstimation
  , charging_status := choiceD ["Charging", "Not Charging", "Scheduled"] rng.statusIdx
  , charging_power_rate := rng.chargingPowerRate
  , battery_temperature := rng.batteryTemperature
  , error_codes := []
  , motor_rpm := rng.motorRpm
  , odometer_reading := rng.odometer
  , battery_12v_voltage := rng.battery12v
  , regenerative_braking_data := [("power", rng.regenPower), ("efficiency", rng.regenEfficiency)]
  , tire_pressure :=
      [ ("front_left", rng.tpFL), ("front_right", rng.tpFR)
      , ("rear_left", rng.tpRL), ("rear_right", rng.tpRR) ] }

/-- prepopulate_user of src/main.py: builds the John Doe user with a fresh
random car and stores it under its code. -/
def prepopulate_user (rng : CarRng) (db : Store) : Store :=
  let user_data : UserData :=
    { code := generate_user_code
    , name := "John Doe"
    , age := 30
    , language := "English"
    , nationality := "US"
    , phone_number := "+11234567890"
    , car := generate_random_car rng }
  dictInsert user_data.code user_data db

/-- startup_event of src/main.py: prepopulates the (empty) store once at
process start, before any request is served. -/
def startup_event (rng : CarRng) : Store :=
  prepopulate_user rng []

/-- create_user handler of src/main.py: builds a user with the generated
code, sampled identity fields and a fresh random car, stores it under its
code, and returns it together with the updated store. -/
def create_user (rng : UserRng) (db : Store) : UserData × Store :=
  let names := ["John Doe", "Jane Smith", "Alice Johnson", "Bob Wilson"]
  let languages := ["English", "Spanish", "French", "German"]
  let nationalities := ["US", "UK", "FR", "DE", "ES"]
  let user_data : UserData :=
    { code := generate_user_code
    , name := choiceD names rng.nameIdx
    , age := ((18 + rng.ageVal % 63 : Nat) : Int)
    , language := choiceD languages rng.langIdx
    , nationality := choiceD nationalities rng.natIdx
    , phone_number :=
        "+" ++ toString (1 + rng.phoneCountry % 99)
          ++ toString (100000000 + rng.phoneLocal % 900000000)
    , car := generate_random_car rng.carRng }
  (user_data, dictInsert user_data.code user_data db)

/-- The HTTPException raised on a missed lookup. -/
def userNotFound : HTTPException :=
  { status_code := 404, detail := "User not found" }

/-- get_user handler of src/main.py: raises 404 when the code is absent,
otherwise returns the stored user; the store is returned unchanged. -/
def get_user (code : String) (db : Store) : Except HTTPException UserData × Store :=
  match dictGet code db with
  | none => (Except.error userNotFound, db)
  | some u => (Except.ok u, db)

/-- list_users handler of src/main.py: returns all stored users in store
order. -/
def list_users (db : Store) : List UserData :=
  db.map Prod.snd

/-- update_car_data handler of src/main.py: raises 404 when the code is
absent, otherwise replaces the stored user's car field wholesale with the
supplied CarData and returns the updated user with the updated store. -/
def update_car_data (code : String) (car_data : CarData) (db : Store) :
    Except HTTPException UserData × Store :=
  match dictGet code db with
  | none => (Except.error userNotFound, db)
  | some u =>
      let u' : UserData := { u with car := car_data }
      (Except.ok u', dictInsert code u' db)

/-- Characterisation of lookup after assignment: the assigned key now maps
to the new value and every other key is untouched. -/
theorem dictGet_dictInsert {α : Type} (k k' : String) (v : α) (db : List (String × α)) :
    dictGet k' (dictInsert k v db) = if k = k' then some v else dictGet k' db := by
  induction db with
  | nil => simp [dictGet, dictInsert]
  | cons hd tl ih =>
      obtain ⟨k₀, v₀⟩ := hd
      simp only [dictInsert]
      by_cases h₀ : k₀ = k
      · subst h₀
        simp only [if_pos rfl, dictGet]
        by_cases h₁ : k₀ = k'
        · simp [h₁]
        · simp [h₁, dictGet]
      · simp only [if_neg h₀, dictGet, ih]
        by_cases h₁ : k₀ = k'
        · subst h₁
          have hkk : ¬ k = k₀ := fun hEq => h₀ hEq.symm
          simp [hkk]
        · simp [h₁]

/-- A successful lookup means the key occurs among the stored keys. -/
theorem dictGet_mem_keys {α : Type} (k : String) (u : α) (db : List (String × α))
    (h : dictGet k db = some u) : k ∈ db.map Prod.fst := by
  induction db with
  | nil => simp [dictGet] at h
  | cons hd tl ih =>
      obtain ⟨k₀, v₀⟩ := hd
      simp only [dictGet] at h
      by_cases h₀ : k₀ = k
      · simp [h₀]
      · simp only [h₀, if_false] at h
        simp [ih h]

/-- A successful lookup returns one of the stored values. -/
theorem dictGet_mem_values {α : Type} (k : String) (u : α) (db : List (String × α))
    (h : dictGet k db = some u) : u ∈ db.map Prod.snd := by
  induction db with
  | nil => simp [dictGet] at h
  | cons hd tl ih =>
      obtain ⟨k₀, v₀⟩ := hd
      simp only [dictGet] at h
      by_cases h₀ : k₀ = k
      · simp only [h₀, if_pos rfl] at h
        simp [← Option.some_inj.mp h]
      · simp only [h₀, if_false] at h
        simp [ih h]

/-- When the stored keys are distinct, every stored value is reached by
looking up some key. -/
theorem dictGet_surj_on_values {α : Type} (u : α) (db : List (String × α))
    (hnd : (db.map Prod.fst).Nodup) (h : u ∈ db.map Prod.snd) :
    ∃ k, dictGet k db = some u := by
  induction db with
  | nil => simp at h
  | cons hd tl ih =>
      obtain ⟨k₀, v₀⟩ := hd
      simp only [List.map_cons, List.nodup_cons] at hnd
      rcases List.mem_cons.mp h with h₁ | h₁
      · exact ⟨k₀, by simp [dictGet, h₁]⟩
      · obtain ⟨k, hk⟩ := ih hnd.2 h₁
        refine ⟨k, ?_⟩
        have hk₀ : k₀ ≠ k := by
          intro hEq
          exact hnd.1 (hEq ▸ dictGet_mem_keys k u tl hk)
        simp [dictGet, hk₀, hk]

/-- Sampling from a nonempty list returns an element of the list. -/
theorem choiceD_mem (l : List String) (i : Nat) (h : l ≠ []) : choiceD l i ∈ l := by
  have hl : 0 < l.length := List.length_pos.mpr h
  have hlt : i % l.length < l.length := Nat.mod_lt _ hl
  rw [choiceD, List.getD_eq_getElem?_getD, List.getElem?_eq_getElem hlt]
  exact List.getElem_mem hlt

/-- Concrete car randomness used to evaluate witnesses. -/
def demoCarRng : CarRng :=
  { brandIdx := 0, modelIdx := 0, yearVal := 0, vinHex := "0123456789abcdef0"
  , plateLetterIdx := 0, plateNumVal := 0, colorIdx := 0, portIdx := 0, statusIdx := 0
  , batteryCapacity := 80, maximumRange := 300, stateOfCharge := 50, speedVal := 0
  , instantPower := 20, histSample := fun _ => 20, rangeEstimation := 200
  , chargingPowerRate := 0, batteryTemperature := 25, motorRpm := 0, odometer := 0
  , battery12v := 12, regenPower := 10, regenEfficiency := 9/10
  , tpFL := 23/10, tpFR := 23/10, tpRL := 23/10, tpRR := 23/10 }

/-- Concrete user randomness used to evaluate witnesses. -/
def demoUserRng : UserRng :=
  { nameIdx := 1, ageVal := 0, langIdx := 0, natIdx := 0
  , phoneCountry := 0, phoneLocal := 0, carRng := demoCarRng }

/-- Concrete user used to evaluate witnesses: the bootstrap user produced
from demoCarRng. -/
def demoUser : UserData :=
  { code := "aaaaaa", name := "John Doe", age := 30, language := "English"
  , nationality := "US", phone_number := "+11234567890"
  , car := generate_random_car demoCarRng }

/-- Concrete one-entry store used to evaluate witnesses. -/
def demoStore : Store :=
  [("aaaaaa", demoUser)]

/-- Concrete replacement vehicle used to evaluate witnesses. -/
def demoCar2 : CarData :=
  generate_random_car { demoCarRng with stateOfCharge := 75, brandIdx := 1 }

/-- C1: update-car on a code present in the store replaces the stored
user's car field wholesale with the supplied vehicle and returns the
updated user, and a subsequent get on that code yields a user whose car
equals the supplied vehicle field-for-field; no validation rejects any
structurally valid vehicle. -/
theorem update_car_replaces_car (c : String) (V : CarData) (db : Store)
    (u : UserData) (h : dictGet c db = some u) :
    update_car_data c V db =
      (Except.ok { u with car := V }, dictInsert c { u with car := V } db) ∧
    ({ u with car := V } : UserData).car = V ∧
    get_user c (update_car_data c V db).2 =
      (Except.ok { u with car := V }, (update_car_data c V db).2) := by
  refine ⟨by simp [update_car_data, h], rfl, ?_⟩
  simp [update_car_data, h, get_user, dictGet_dictInsert]

/-- C1 witness: the theorem evaluated at a concrete store, user and
vehicle. -/
theorem update_car_replaces_car_witness :
    update_car_data "aaaaaa" demoCar2 demoStore =
      (Except.ok { demoUser with car := demoCar2 },
        dictInsert "aaaaaa" { demoUser with car := demoCar2 } demoStore) ∧
    ({ demoUser with car := demoCar2 } : UserData).car = demoCar2 ∧
    get_user "aaaaaa" (update_car_data "aaaaaa" demoCar2 demoStore).2 =
      (Except.ok { demoUser with car := demoCar2 },
        (update_car_data "aaaaaa" demoCar2 demoStore).2) :=
  update_car_replaces_car "aaaaaa" demoCar2 demoStore demoUser rfl

/-- C2: get-by-code returns the stored user exactly when the code is a key
of the store, signals the 404 not-found error exactly when the code is
absent, and never modifies the store. -/
theorem get_user_spec (c : String) (db : Store) :
    (∀ u, dictGet c db = some u → get_user c db = (Except.ok u, db)) ∧
    (dictGet c db = none → get_user c db = (Except.error userNotFound, db)) ∧
    userNotFound.status_code = 404 ∧
    (get_user c db).2 = db := by
  refine ⟨?_, ?_, rfl, ?_⟩
  · intro u hu
    simp [get_user, hu]
  · intro hn
    simp [get_user, hn]
  · cases hd : dictGet c db <;> simp [get_user, hd]

/-- C2 witness: the theorem evaluated at a present and at an absent code of
a concrete store. -/
theorem get_user_spec_witness :
    get_user "aaaaaa" demoStore = (Except.ok demoUser, demoStore) ∧
    get_user "zzzzzz" demoStore = (Except.error userNotFound, demoStore) :=
  ⟨(get_user_spec "aaaaaa" demoStore).1 demoUser rfl,
   (get_user_spec "zzzzzz" demoStore).2.1 rfl⟩

/-- C3: update-car on a code absent from the store signals not-found and
returns the store exactly unchanged: no entry is added, removed, or
modified. -/
theorem update_car_not_found (c : String) (V : CarData) (db : Store)
    (h : dictGet c db = none) :
    update_car_data c V db = (Except.error userNotFound, db) := by
  simp [update_car_data, h]

/-- C3 witness: the theorem evaluated at an absent code of a concrete
store. -/
theorem update_car_not_found_witness :
    update_car_data "zzzzzz" demoCar2 demoStore = (Except.error userNotFound, demoStore) :=
  update_car_not_found "zzzzzz" demoCar2 demoStore rfl

/-- C4: create always succeeds, returns a user carrying the generated code,
identity fields sampled from the fixed enumerations and a fresh random
vehicle, inserts (or overwrites) the store entry under that code, and a
subsequent get on that code returns a user structurally equal to the one
returned by create. -/
theorem create_user_spec (rng : UserRng) (db : Store) :
    (create_user rng db).1.code = generate_user_code ∧
    (create_user rng db).1.car = generate_random_car rng.carRng ∧
    (create_user rng db).2 = dictInsert generate_user_code (create_user rng db).1 db ∧
    get_user (create_user rng db).1.code (create_user rng db).2 =
      (Except.ok (create_user rng db).1, (create_user rng db).2) ∧
    (create_user rng db).1.name ∈ ["John Doe", "Jane Smith", "Alice Johnson", "Bob Wilson"] ∧
    (create_user rng db).1.language ∈ ["English", "Spanish", "French", "German"] ∧
    (create_user rng db).1.nationality ∈ ["US", "UK", "FR", "DE", "ES"] := by
  refine ⟨rfl, rfl, rfl, ?_, ?_, ?_, ?_⟩
  · have hget : dictGet (create_user rng db).1.code (create_user rng db).2 =
        some (create_user rng db).1 := by
      show dictGet (create_user rng db).1.code
          (dictInsert (create_user rng db).1.code (create_user rng db).1 db) =
        some (create_user rng db).1
      rw [dictGet_dictInsert, if_pos rfl]
    simp [get_user, hget]
  · exact choiceD_mem ["John Doe", "Jane Smith", "Alice Johnson", "Bob Wilson"] rng.nameIdx
      (by simp)
  · exact choiceD_mem ["English", "Spanish", "French", "German"] rng.langIdx (by simp)
  · exact choiceD_mem ["US", "UK", "FR", "DE", "ES"] rng.natIdx (by simp)

/-- C5: list-all always succeeds and returns exactly the stored users: the
user stored under any present code occurs in the result, every element of
the result is the user stored under some code, the result has exactly one
element per store entry, and the empty store yields the empty sequence. -/
theorem list_users_spec (db : Store) (hnd : (db.map Prod.fst).Nodup) :
    (∀ k u, dictGet k db = some u → u ∈ list_users db) ∧
    (∀ u, u ∈ list_users db → ∃ k, dictGet k db = some u) ∧
    (list_users db).length = db.length ∧
    list_users [] = [] := by
  refine ⟨?_, ?_, by simp [list_users], rfl⟩
  · intro k u hu
    exact dictGet_mem_values k u db hu
  · intro u hu
    exact dictGet_surj_on_values u db hnd hu

/-- C5 witness: the theorem evaluated on a concrete one-entry store. -/
theorem list_users_spec_witness :
    demoUser ∈ list_users demoStore ∧
    (list_users demoStore).length = demoStore.length :=
  ⟨(list_users_spec demoStore (by decide)).1 "aaaaaa" demoUser rfl,
   (list_users_spec demoStore (by decide)).2.2.1⟩

/-- C6: for every randomness, the generated vehicle has exactly ten
historical power consumption entries, an empty error code list, exactly the
four named tire pressure keys, and GPS coordinates fixed to the Porto
constant; the generator is a total function and never fails. -/
theorem generate_random_car_spec (rng : CarRng) :
    (generate_random_car rng).historical_power_consumption.length = 10 ∧
    (generate_random_car rng).error_codes = [] ∧
    (generate_random_car rng).tire_pressure.map Prod.fst =
      ["front_left", "front_right", "rear_left", "rear_right"] ∧
    (generate_random_car rng).gps_coordinates =
      [("latitude", (41.1498379795316 : ℚ)), ("longitude", (-8.65870106339955 : ℚ))] := by
  refine ⟨?_, rfl, rfl, rfl⟩
  simp [generate_random_car]

/-- C7: the user-code generator always returns the fixed literal aaaaaa, so
two consecutive creates, whether starting from the empty store or right
after startup, leave the store with exactly one entry, keyed aaaaaa and
holding the second created user (which overwrote the first). -/
theorem create_twice_overwrites (rng₁ rng₂ : UserRng) (rng₀ : CarRng) :
    generate_user_code = "aaaaaa" ∧
    (create_user rng₂ (create_user rng₁ []).2).2 =
      [("aaaaaa", (create_user rng₂ (create_user rng₁ []).2).1)] ∧
    (create_user rng₂ (create_user rng₁ (startup_event rng₀)).2).2 =
      [("aaaaaa", (create_user rng₂ (create_user rng₁ (startup_event rng₀)).2).1)] := by
  exact ⟨rfl, rfl, rfl⟩

/-- C8: the startup bootstrap inserts exactly one user, named John Doe,
aged 30, English language, US nationality, the fixed phone number and a
freshly generated vehicle, under the fixed code, so that list-all right
after startup returns exactly that one user. -/
theorem startup_event_spec (rng : CarRng) :
    startup_event rng =
      [("aaaaaa",
        { code := "aaaaaa", name := "John Doe", age := 30, language := "English"
        , nationality := "US", phone_number := "+11234567890"
        , car := generate_random_car rng })] ∧
    list_users (startup_event rng) =
      [{ code := "aaaaaa", name := "John Doe", age := 30, language := "English"
       , nationality := "US", phone_number := "+11234567890"
       , car := generate_random_car rng }] ∧
    (list_users (startup_event rng)).length = 1 := by
  exact ⟨rfl, rfl, rfl⟩

/-- Store invariant of the spec: every stored user's code is nonempty and
equals the key it is stored under. -/
def storeInv (db : Store) : Prop :=
  ∀ k u, dictGet k db = some u → u.code = k ∧ u.code ≠ ""

/-- Assignment of a value whose code equals the key and is nonempty
preserves the store invariant. -/
theorem storeInv_dictInsert (db : Store) (k : String) (v : UserData)
    (hdb : storeInv db) (hk : v.code = k) (hne : v.code ≠ "") :
    storeInv (dictInsert k v db) := by
  intro k' u hu
  rw [dictGet_dictInsert] at hu
  split_ifs at hu with h
  · injection hu with hvu
    subst hvu
    exact ⟨h ▸ hk, hne⟩
  · exact hdb k' u hu

/-- C9: the store invariant holds for the initial empty store and is
preserved by bootstrap, create and update-car, while get-by-code leaves
the store unchanged. -/
theorem storeInv_preserved :
    storeInv [] ∧
    (∀ rng db, storeInv db → storeInv (prepopulate_user rng db)) ∧
    (∀ rng db, storeInv db → storeInv (create_user rng db).2) ∧
    (∀ c db, (get_user c db).2 = db) ∧
    (∀ c V db, storeInv db → storeInv (update_car_data c V db).2) := by
  refine ⟨?_, ?_, ?_, ?_, ?_⟩
  · intro k u hu
    exact Option.noConfusion hu
  · intro rng db hdb
    exact storeInv_dictInsert db generate_user_code _ hdb rfl
      (show ("aaaaaa" : String) ≠ "" by decide)
  · intro rng db hdb
    exact storeInv_dictInsert db generate_user_code _ hdb rfl
      (show ("aaaaaa" : String) ≠ "" by decide)
  · intro c db
    cases hd : dictGet c db <;> simp [get_user, hd]
  · intro c V db hdb
    cases hd : dictGet c db with
    | none => simpa [update_car_data, hd] using hdb
    | some u =>
        have hu := hdb c u hd
        simp only [update_car_data, hd]
        exact storeInv_dictInsert db c { u with car := V } hdb hu.1 hu.2

/-- C9 witness: the preservation statements evaluated on concrete stores,
the invariant hypotheses discharged concretely. -/
theorem storeInv_preserved_witness :
    storeInv (prepopulate_user demoCarRng []) ∧
    storeInv (create_user demoUserRng []).2 ∧
    storeInv (update_car_data "aaaaaa" demoCar2 demoStore).2 :=
  ⟨storeInv_preserved.2.1 demoCarRng [] storeInv_preserved.1,
   storeInv_preserved.2.2.1 demoUserRng [] storeInv_preserved.1,
   storeInv_preserved.2.2.2.2 "aaaaaa" demoCar2 demoStore
     (show storeInv demoStore from
       storeInv_preserved.2.1 demoCarRng [] storeInv_preserved.1)⟩

/-- C10: a successful update-car changes only the car field of the user
stored under the targeted code: its code, name, age, language, nationality
and phone number are unchanged, and every store entry under any other key
is unchanged. -/
theorem update_car_frame (c : String) (V : CarData) (db : Store)
    (u : UserData) (h : dictGet c db = some u) :
    dictGet c (update_car_data c V db).2 = some { u with car := V } ∧
    ({ u with car := V } : UserData).code = u.code ∧
    ({ u with car := V } : UserData).name = u.name ∧
    ({ u with car := V } : UserData).age = u.age ∧
    ({ u with car := V } : UserData).language = u.language ∧
    ({ u with car := V } : UserData).nationality = u.nationality ∧
    ({ u with car := V } : UserData).phone_number = u.phone_number ∧
    ∀ k, k ≠ c → dictGet k (update_car_data c V db).2 = dictGet k db := by
  refine ⟨?_, rfl, rfl, rfl, rfl, rfl, rfl, ?_⟩
  · simp [update_car_data, h, dictGet_dictInsert]
  · intro k hk
    have h2 : (update_car_data c V db).2 = dictInsert c { u with car := V } db := by
      simp [update_car_data, h]
    rw [h2, dictGet_dictInsert, if_neg (Ne.symm hk)]

/-- C10 witness: the frame property evaluated at a concrete store, with the
targeted key and an unrelated key. -/
theorem update_car_frame_witness :
    dictGet "aaaaaa" (update_car_data "aaaaaa" demoCar2 demoStore).2 =
      some { demoUser with car := demoCar2 } ∧
    dictGet "zzzzzz" (update_car_data "aaaaaa" demoCar2 demoStore).2 =
      dictGet "zzzzzz" demoStore :=
  ⟨(update_car_frame "aaaaaa" demoCar2 demoStore demoUser rfl).1,
   (update_car_frame "aaaaaa" demoCar2 demoStore demoUser rfl).2.2.2.2.2.2.2
     "zzzzzz" (by decide)⟩
